import Mathlib

/-
Verification of the ESG Management Platform against its specification.

The embedding models JavaScript numbers as rationals (ℚ), JavaScript
Math.round as the floor of x + 1/2 (round half toward plus infinity),
possibly-absent object fields as Option values, and the falsy-coalescing
idiom (x || 0) as orZero. Dates are modelled as integer instants.
Source files referenced below:
  - services/esgCalculationService.js  (aggregation and scoring engine)
  - utils/helpers.js                   (roundToDecimal, calculatePercentage)
  - models/ESGRecord.js                (schema and the pre-save hook)
  - models/Report.js                   (report schema)
  - controllers/esgController.js       (record lifecycle endpoints)
  - controllers/reportController.js    (report generation and status update)
  - services/auditService.js           (audit log writer)
  - middleware/roleCheck.js, routes    (role guards)
-/

namespace ESG

/-- helpers.js roundToDecimal: Math.round(number * 10^decimals) / 10^decimals,
where Math.round x is the floor of x + 1/2. -/
def roundToDecimal (number : ℚ) (decimals : ℕ) : ℚ :=
  (⌊number * 10 ^ decimals + 1 / 2⌋ : ℚ) / 10 ^ decimals

/-- helpers.js calculatePercentage: returns 0 when total is 0, otherwise
roundToDecimal of (part / total) * 100. -/
def calculatePercentage (part total : ℚ) (decimals : ℕ) : ℚ :=
  if total = 0 then 0 else roundToDecimal (part / total * 100) decimals

/-- The JavaScript idiom (x || 0) applied to a possibly-absent numeric field:
an absent field contributes 0; note that for a present number the idiom is the
identity, since the only falsy rational is 0 itself. -/
def orZero : Option ℚ → ℚ
  | none => 0
  | some q => q

/-- governance.complianceStatus enum of the ESGRecord schema. -/
inductive ComplianceStatus
  | compliant
  | partially_compliant
  | non_compliant
  | under_review
deriving DecidableEq

/-- ESGRecord.status enum. -/
inductive RecordStatus
  | draft
  | submitted
  | under_review
  | approved
  | rejected
deriving DecidableEq

/-- The environmental sub-document of an ESGRecord. Every numeric field may be
absent on a plain object, hence Option. -/
structure EnvironmentalData where
  scope1Emissions : Option ℚ := none
  scope2Emissions : Option ℚ := none
  scope3Emissions : Option ℚ := none
  totalCarbonEmissions : Option ℚ := none
  energyConsumption : Option ℚ := none
  renewableEnergyPercentage : Option ℚ := none
  waterUsage : Option ℚ := none
  wasteGenerated : Option ℚ := none
  wasteRecycled : Option ℚ := none
deriving DecidableEq

/-- The social sub-document of an ESGRecord. -/
structure SocialData where
  totalEmployees : Option ℚ := none
  diversityRatio : Option ℚ := none
  femaleEmployeesPercentage : Option ℚ := none
  healthAndSafetyIncidents : Option ℚ := none
  trainingHoursPerEmployee : Option ℚ := none
  employeeTurnoverRate : Option ℚ := none
  communityInvestment : Option ℚ := none
deriving DecidableEq

/-- The governance sub-document of an ESGRecord. -/
structure GovernanceData where
  boardIndependence : Option ℚ := none
  femaleDirectorsPercentage : Option ℚ := none
  complianceStatus : Option ComplianceStatus := none
  ethicsPolicyConfirmed : Option Bool := none
  whistleblowerCases : Option ℚ := none
  dataBreaches : Option ℚ := none
deriving DecidableEq

/-- An ESGRecord document. Metadata fields follow models/ESGRecord.js; dates
are integer instants and user references are numeric ids. -/
structure ESGRecordDoc where
  id : ℕ := 0
  organization : String := ""
  status : RecordStatus := .draft
  environmental : Option EnvironmentalData := none
  social : Option SocialData := none
  governance : Option GovernanceData := none
  submittedBy : ℕ := 0
  reviewedBy : Option ℕ := none
  reviewNotes : Option String := none
  submittedAt : Option ℤ := none
  approvedAt : Option ℤ := none
  createdAt : ℤ := 0
deriving DecidableEq

/-- Reading a numeric field through (record.environmental || {}) followed by
(env.field || 0): absent sub-document or absent field contributes 0. -/
def envField (f : EnvironmentalData → Option ℚ) (r : ESGRecordDoc) : ℚ :=
  match r.environmental with
  | none => 0
  | some e => orZero (f e)

/-- Reading a numeric field through (record.social || {}). -/
def socialField (f : SocialData → Option ℚ) (r : ESGRecordDoc) : ℚ :=
  match r.social with
  | none => 0
  | some s => orZero (f s)

/-- Reading a numeric field through (record.governance || {}). -/
def govField (f : GovernanceData → Option ℚ) (r : ESGRecordDoc) : ℚ :=
  match r.governance with
  | none => 0
  | some g => orZero (f g)

/-- The per-record compliance indicator of aggregateGovernanceMetrics:
1 when gov.complianceStatus is exactly the string compliant, else 0. -/
def govCompliant (r : ESGRecordDoc) : ℚ :=
  match r.governance with
  | none => 0
  | some g => if g.complianceStatus = some ComplianceStatus.compliant then 1 else 0

/-- Whether a record counts as compliant: its governance sub-document is
present and its complianceStatus is exactly compliant. -/
def isCompliant (r : ESGRecordDoc) : Bool :=
  match r.governance with
  | none => false
  | some g => g.complianceStatus = some ComplianceStatus.compliant

/-- Environmental summary shape returned by aggregateEnvironmentalMetrics. -/
structure EnvironmentalSummary where
  totalScope1Emissions : ℚ := 0
  totalScope2Emissions : ℚ := 0
  totalScope3Emissions : ℚ := 0
  totalCarbonEmissions : ℚ := 0
  averageRenewableEnergyPercentage : ℚ := 0
  totalEnergyConsumption : ℚ := 0
  totalWaterUsage : ℚ := 0
  wasteRecyclingRate : ℚ := 0
deriving DecidableEq

/-- Social summary shape returned by aggregateSocialMetrics. -/
structure SocialSummary where
  averageDiversityRatio : ℚ := 0
  totalHealthAndSafetyIncidents : ℚ := 0
  averageTrainingHours : ℚ := 0
  averageTurnoverRate : ℚ := 0
  totalCommunityInvestment : ℚ := 0
  averageFemaleEmployeesPercentage : ℚ := 0
deriving DecidableEq

/-- Governance summary shape returned by aggregateGovernanceMetrics. -/
structure GovernanceSummary where
  averageBoardIndependence : ℚ := 0
  complianceRate : ℚ := 0
  totalWhistleblowerCases : ℚ := 0
  totalDataBreaches : ℚ := 0
  averageFemaleDirectorsPercentage : ℚ := 0
deriving DecidableEq

/-- Accumulator of the reduce inside aggregateEnvironmentalMetrics. -/
structure EnvTotals where
  scope1 : ℚ
  scope2 : ℚ
  scope3 : ℚ
  renewableEnergy : ℚ
  energyConsumption : ℚ
  waterUsage : ℚ
  wasteGenerated : ℚ
  wasteRecycled : ℚ

/-- Initial accumulator of the environmental reduce. -/
def envInit : EnvTotals :=
  { scope1 := 0, scope2 := 0, scope3 := 0, renewableEnergy := 0
    energyConsumption := 0, waterUsage := 0, wasteGenerated := 0, wasteRecycled := 0 }

/-- One step of the environmental reduce. -/
def envStep (acc : EnvTotals) (r : ESGRecordDoc) : EnvTotals :=
  { scope1 := acc.scope1 + envField EnvironmentalData.scope1Emissions r
    scope2 := acc.scope2 + envField EnvironmentalData.scope2Emissions r
    scope3 := acc.scope3 + envField EnvironmentalData.scope3Emissions r
    renewableEnergy := acc.renewableEnergy + envField EnvironmentalData.renewableEnergyPercentage r
    energyConsumption := acc.energyConsumption + envField EnvironmentalData.energyConsumption r
    waterUsage := acc.waterUsage + envField EnvironmentalData.waterUsage r
    wasteGenerated := acc.wasteGenerated + envField EnvironmentalData.wasteGenerated r
    wasteRecycled := acc.wasteRecycled + envField EnvironmentalData.wasteRecycled r }

/-- esgCalculationService.calculateTotalEmissions: rounds the sum of the three
scopes to 2 decimals (the || 0 coalescing on numeric arguments is the
identity, see orZero). -/
def calculateTotalEmissions (scope1 scope2 scope3 : ℚ) : ℚ :=
  roundToDecimal (scope1 + scope2 + scope3) 2

/-- esgCalculationService.calculateWasteRecyclingRate: 0 when wasteGenerated is
falsy (the only falsy rational is 0), otherwise calculatePercentage. -/
def calculateWasteRecyclingRate (wasteGenerated wasteRecycled : ℚ) : ℚ :=
  if wasteGenerated = 0 then 0 else calculatePercentage wasteRecycled wasteGenerated 2

/-- esgCalculationService.aggregateEnvironmentalMetrics, mirroring the reduce
and the final rounding of each output. -/
def aggregateEnvironmentalMetrics (records : List ESGRecordDoc) : EnvironmentalSummary :=
  if records.length = 0 then {}
  else
    let totals := records.foldl envStep envInit
    { totalScope1Emissions := roundToDecimal totals.scope1 2
      totalScope2Emissions := roundToDecimal totals.scope2 2
      totalScope3Emissions := roundToDecimal totals.scope3 2
      totalCarbonEmissions := calculateTotalEmissions totals.scope1 totals.scope2 totals.scope3
      averageRenewableEnergyPercentage := roundToDecimal (totals.renewableEnergy / records.length) 2
      totalEnergyConsumption := roundToDecimal totals.energyConsumption 2
      totalWaterUsage := roundToDecimal totals.waterUsage 2
      wasteRecyclingRate := calculateWasteRecyclingRate totals.wasteGenerated totals.wasteRecycled }

/-- Accumulator of the reduce inside aggregateSocialMetrics. -/
structure SocialTotals where
  diversityRatio : ℚ
  healthIncidents : ℚ
  trainingHours : ℚ
  turnoverRate : ℚ
  communityInvestment : ℚ
  femalePercentage : ℚ

/-- Initial accumulator of the social reduce. -/
def socialInit : SocialTotals :=
  { diversityRatio := 0, healthIncidents := 0, trainingHours := 0
    turnoverRate := 0, communityInvestment := 0, femalePercentage := 0 }

/-- One step of the social reduce. -/
def socialStep (acc : SocialTotals) (r : ESGRecordDoc) : SocialTotals :=
  { diversityRatio := acc.diversityRatio + socialField SocialData.diversityRatio r
    healthIncidents := acc.healthIncidents + socialField SocialData.healthAndSafetyIncidents r
    trainingHours := acc.trainingHours + socialField SocialData.trainingHoursPerEmployee r
    turnoverRate := acc.turnoverRate + socialField SocialData.employeeTurnoverRate r
    communityInvestment := acc.communityInvestment + socialField SocialData.communityInvestment r
    femalePercentage := acc.femalePercentage + socialField SocialData.femaleEmployeesPercentage r }

/-- esgCalculationService.aggregateSocialMetrics. -/
def aggregateSocialMetrics (records : List ESGRecordDoc) : SocialSummary :=
  if records.length = 0 then {}
  else
    let totals := records.foldl socialStep socialInit
    { averageDiversityRatio := roundToDecimal (totals.diversityRatio / records.length) 2
      totalHealthAndSafetyIncidents := totals.healthIncidents
      averageTrainingHours := roundToDecimal (totals.trainingHours / records.length) 2
      averageTurnoverRate := roundToDecimal (totals.turnoverRate / records.length) 2
      totalCommunityInvestment := roundToDecimal totals.communityInvestment 2
      averageFemaleEmployeesPercentage := roundToDecimal (totals.femalePercentage / records.length) 2 }

/-- Accumulator of the reduce inside aggregateGovernanceMetrics. -/
structure GovTotals where
  boardIndependence : ℚ
  compliant : ℚ
  whistleblower : ℚ
  dataBreaches : ℚ
  femaleDirectors : ℚ

/-- Initial accumulator of the governance reduce. -/
def govInit : GovTotals :=
  { boardIndependence := 0, compliant := 0, whistleblower := 0
    dataBreaches := 0, femaleDirectors := 0 }

/-- One step of the governance reduce. -/
def govStep (acc : GovTotals) (r : ESGRecordDoc) : GovTotals :=
  { boardIndependence := acc.boardIndependence + govField GovernanceData.boardIndependence r
    compliant := acc.compliant + govCompliant r
    whistleblower := acc.whistleblower + govField GovernanceData.whistleblowerCases r
    dataBreaches := acc.dataBreaches + govField GovernanceData.dataBreaches r
    femaleDirectors := acc.femaleDirectors + govField GovernanceData.femaleDirectorsPercentage r }

/-- esgCalculationService.aggregateGovernanceMetrics. -/
def aggregateGovernanceMetrics (records : List ESGRecordDoc) : GovernanceSummary :=
  if records.length = 0 then {}
  else
    let totals := records.foldl govStep govInit
    { averageBoardIndependence := roundToDecimal (totals.boardIndependence / records.length) 2
      complianceRate := calculatePercentage totals.compliant records.length 2
      totalWhistleblowerCases := totals.whistleblower
      totalDataBreaches := totals.dataBreaches
      averageFemaleDirectorsPercentage := roundToDecimal (totals.femaleDirectors / records.length) 2 }

/-- Overall score shape returned by calculateOverallScores. -/
structure OverallScore where
  environmentalScore : ℚ := 0
  socialScore : ℚ := 0
  governanceScore : ℚ := 0
  totalScore : ℚ := 0
deriving DecidableEq

/-- esgCalculationService.calculateOverallScores: three clamped domain scores,
totalScore as the mean of the clamped (unrounded) scores, all four rounded to
2 decimals at the end. Math.min-100 and Math.max-0 become min and max. -/
def calculateOverallScores (environmentalSummary : EnvironmentalSummary)
    (socialSummary : SocialSummary) (governanceSummary : GovernanceSummary) : OverallScore :=
  let environmentalScore :=
    min 100 (max 0 (100 - environmentalSummary.totalCarbonEmissions / 10000 * 100))
  let socialScore :=
    min 100 (max 0
      ((socialSummary.averageDiversityRatio +
        (100 - socialSummary.totalHealthAndSafetyIncidents) +
        socialSummary.averageTrainingHours) / 3))
  let governanceScore :=
    min 100 (max 0
      ((governanceSummary.averageBoardIndependence +
        governanceSummary.complianceRate +
        (100 - governanceSummary.totalDataBreaches * 10)) / 3))
  let totalScore := (environmentalScore + socialScore + governanceScore) / 3
  { environmentalScore := roundToDecimal environmentalScore 2
    socialScore := roundToDecimal socialScore 2
    governanceScore := roundToDecimal governanceScore 2
    totalScore := roundToDecimal totalScore 2 }

/-- Report.status enum of models/Report.js. -/
inductive ReportStatus
  | draft
  | finalized
  | published
  | archived
deriving DecidableEq

/-- Position of a report status along the documented chain
draft, finalized, published, archived. -/
def statusIndex : ReportStatus → ℕ
  | .draft => 0
  | .finalized => 1
  | .published => 2
  | .archived => 3

/-- A Report document (the fields the verified endpoints touch). -/
structure ReportDoc where
  id : ℕ := 0
  organization : String := ""
  environmentalSummary : EnvironmentalSummary := {}
  socialSummary : SocialSummary := {}
  governanceSummary : GovernanceSummary := {}
  overallScore : OverallScore := {}
  includedRecords : List ℕ := []
  generatedBy : ℕ := 0
  status : ReportStatus := .draft
  notes : Option String := none
  publishedAt : Option ℤ := none
deriving DecidableEq

/-- esgCalculationService.getRecordsForPeriod: the store query for records of
the organization with status approved and creation instant inside the closed
window. Order is irrelevant to the aggregators. -/
def getRecordsForPeriod (store : List ESGRecordDoc) (organization : String)
    (startDate endDate : ℤ) : List ESGRecordDoc :=
  store.filter fun r =>
    r.organization == organization &&
    r.status == RecordStatus.approved &&
    decide (startDate ≤ r.createdAt) && decide (r.createdAt ≤ endDate)

/-- Outcome of the generateReport controller: either a created report with its
HTTP status code, or a client error carrying the HTTP status code. -/
inductive GenerateReportResult
  | created (code : ℕ) (report : ReportDoc)
  | clientError (code : ℕ)
deriving DecidableEq

/-- reportController.generateReport after period resolution: query the
eligible records, refuse with 400 when the list is empty, otherwise run the
three aggregators, compose scores and persist the report snapshot (201). -/
def generateReport (store : List ESGRecordDoc) (organization : String)
    (startDate endDate : ℤ) (reportId generatedBy : ℕ) : GenerateReportResult :=
  let records := getRecordsForPeriod store organization startDate endDate
  if records.length = 0 then
    .clientError 400
  else
    let environmentalSummary := aggregateEnvironmentalMetrics records
    let socialSummary := aggregateSocialMetrics records
    let governanceSummary := aggregateGovernanceMetrics records
    let overallScore := calculateOverallScores environmentalSummary socialSummary governanceSummary
    .created 201
      { id := reportId
        organization := organization
        environmentalSummary := environmentalSummary
        socialSummary := socialSummary
        governanceSummary := governanceSummary
        overallScore := overallScore
        includedRecords := records.map ESGRecordDoc.id
        generatedBy := generatedBy
        status := .draft }

/-- reportController.updateReportStatus, after the existence and organization
guards: whatever enum status the body carries is assigned unconditionally; the
transition to published stamps publishedAt := now; notes are overwritten when
supplied. No transition-order check exists. -/
def updateReportStatus (report : ReportDoc) (status : Option ReportStatus)
    (notes : Option String) (now : ℤ) : ReportDoc :=
  let report1 :=
    match status with
    | some s =>
        { report with
          status := s
          publishedAt := if s = ReportStatus.published then some now else report.publishedAt }
    | none => report
  match notes with
  | some n => { report1 with notes := some n }
  | none => report1

/-- User.role enum. -/
inductive Role
  | administrator
  | esg_analyst
  | auditor
deriving DecidableEq

/-- The authenticated caller as the controllers see it. -/
structure AuthUser where
  id : ℕ := 0
  role : Role := .esg_analyst
  organization : String := ""
deriving DecidableEq

/-- roleCheck.checkRole: the caller passes when its role is in the allowed
list. -/
def checkRole (allowedRoles : List Role) (user : AuthUser) : Bool :=
  allowedRoles.contains user.role

/-- roleCheck.anyRole: administrator, esg_analyst and auditor are all
allowed. -/
def anyRole (user : AuthUser) : Bool :=
  checkRole [Role.administrator, Role.esg_analyst, Role.auditor] user

/-- The ESGRecord pre-save hook: whenever the environmental sub-document is
present, recompute totalCarbonEmissions as the sum of the three scopes with a
missing scope counted as 0. Every persist of a record runs this hook. -/
def preSaveESGRecord (r : ESGRecordDoc) : ESGRecordDoc :=
  match r.environmental with
  | none => r
  | some e =>
      { r with
        environmental := some
          { e with
            totalCarbonEmissions := some
              (orZero e.scope1Emissions + orZero e.scope2Emissions + orZero e.scope3Emissions) } }

/-- Persisting a record: mongoose runs the pre-save hook, then stores the
document. -/
def saveESGRecord (r : ESGRecordDoc) : ESGRecordDoc :=
  preSaveESGRecord r

/-- The patch body of updateESGRecord; a field participates only when it is
present (req.body field not undefined). -/
structure ESGUpdatePatch where
  environmental : Option EnvironmentalData := none
  social : Option SocialData := none
  governance : Option GovernanceData := none
  status : Option RecordStatus := none
  reviewNotes : Option String := none

/-- The allowedUpdates loop of esgController.updateESGRecord: each supplied
field overwrites the whole corresponding sub-object. -/
def applyAllowedUpdates (r : ESGRecordDoc) (patch : ESGUpdatePatch) : ESGRecordDoc :=
  let r1 := match patch.environmental with
    | some e => { r with environmental := some e }
    | none => r
  let r2 := match patch.social with
    | some s => { r1 with social := some s }
    | none => r1
  let r3 := match patch.governance with
    | some g => { r2 with governance := some g }
    | none => r2
  let r4 := match patch.status with
    | some s => { r3 with status := s }
    | none => r3
  match patch.reviewNotes with
  | some n => { r4 with reviewNotes := some n }
  | none => r4

/-- esgController.updateESGRecord after its permission guards: apply the
allowed updates, then save (which runs the pre-save hook). -/
def updateESGRecordSave (r : ESGRecordDoc) (patch : ESGUpdatePatch) : ESGRecordDoc :=
  saveESGRecord (applyAllowedUpdates r patch)

/-- esgController.createESGRecord: the new document is persisted, running the
pre-save hook. -/
def createESGRecord (data : ESGRecordDoc) : ESGRecordDoc :=
  saveESGRecord data

/-- esgController.submitESGRecord on an existing record: organization guard
(403), then the draft-only guard (400), then the transition to submitted with
submittedAt stamped and the record saved. Returns the HTTP status code and the
persisted record state (unchanged on a refused request). -/
def submitESGRecord (record : ESGRecordDoc) (caller : AuthUser) (now : ℤ) :
    ℕ × ESGRecordDoc :=
  if caller.role ≠ Role.administrator ∧ record.organization ≠ caller.organization then
    (403, record)
  else if record.status ≠ RecordStatus.draft then
    (400, record)
  else
    (200, saveESGRecord { record with status := .submitted, submittedAt := some now })

/-- esgController.approveESGRecord on an existing record: only the status
guard (400) precedes the transition to approved; reviewedBy, approvedAt and
optionally reviewNotes are set and the record saved. There is no role and no
organization check in this controller. -/
def approveESGRecord (record : ESGRecordDoc) (caller : AuthUser)
    (reviewNotes : Option String) (now : ℤ) : ℕ × ESGRecordDoc :=
  if record.status ≠ RecordStatus.submitted ∧ record.status ≠ RecordStatus.under_review then
    (400, record)
  else
    (200, saveESGRecord
      { record with
        status := .approved
        reviewedBy := some caller.id
        approvedAt := some now
        reviewNotes := match reviewNotes with
          | some n => some n
          | none => record.reviewNotes })

/-- The approve route POST /api/esg/:id/approve: authenticate, anyRole guard,
then the controller. -/
def approveRoute (record : ESGRecordDoc) (caller : AuthUser)
    (reviewNotes : Option String) (now : ℤ) : ℕ × ESGRecordDoc :=
  if anyRole caller then approveESGRecord record caller reviewNotes now
  else (403, record)

/-- An audit log entry (shape irrelevant to the claims beyond identity). -/
structure AuditLogEntry where
  action : String := ""
  performedBy : ℕ := 0
deriving DecidableEq

/-- auditService.createLog: the write to the AuditLog collection may fail; the
try-catch turns a failure into a null result, so the function itself never
raises. The outer Except is the exception channel of the caller: it always
carries ok. -/
def createLog (write : Except String AuditLogEntry) :
    Except String (Option AuditLogEntry) :=
  match write with
  | .ok entry => .ok (some entry)
  | .error _ => .ok none

/-- The submit controller including its awaited audit emission: were createLog
to raise, the exception would propagate past the response; since it never
does, the response is that of the underlying operation. -/
def submitESGRecordWithAudit (record : ESGRecordDoc) (caller : AuthUser) (now : ℤ)
    (auditWrite : Except String AuditLogEntry) : Except String (ℕ × ESGRecordDoc) := do
  let result := submitESGRecord record caller now
  let _ ← createLog auditWrite
  pure result

/-- A record carrying only a scope1 emission value (scopes 2 and 3 present and
zero), used as concrete test data. -/
def envOnlyRecord (s1 : ℚ) : ESGRecordDoc :=
  { organization := "AcmeCorp"
    status := .approved
    environmental := some
      { scope1Emissions := some s1, scope2Emissions := some 0, scope3Emissions := some 0 } }

/-- Three concrete records with scope1 emissions 10, 20 and 30. -/
def threeEnvRecords : List ESGRecordDoc :=
  [envOnlyRecord 10, envOnlyRecord 20, envOnlyRecord 30]

/-- A record carrying only governance data, used as concrete test data. -/
def govOnlyRecord (cs : ComplianceStatus) (breaches : ℚ) : ESGRecordDoc :=
  { organization := "AcmeCorp"
    status := .approved
    governance := some { complianceStatus := some cs, dataBreaches := some breaches } }

/-- Four concrete governance records, two of them compliant. -/
def fourGovRecords : List ESGRecordDoc :=
  [govOnlyRecord .compliant 1, govOnlyRecord .compliant 0,
   govOnlyRecord .non_compliant 2, govOnlyRecord .under_review 0]

/-- A store holding one approved AcmeCorp record created at instant 5. -/
def sampleStore : List ESGRecordDoc :=
  [{ envOnlyRecord 10 with id := 7, createdAt := 5 }]

/-- A concrete published report. -/
def publishedReport : ReportDoc :=
  { id := 3, organization := "AcmeCorp", status := .published, publishedAt := some 50 }

/-- A concrete draft record of AcmeCorp submitted by user 42. -/
def draftRecord : ESGRecordDoc :=
  { envOnlyRecord 10 with id := 11, status := .draft, submittedBy := 42 }

/-- A concrete submitted record of AcmeCorp submitted by user 42. -/
def submittedRecord : ESGRecordDoc :=
  { envOnlyRecord 10 with id := 12, status := .submitted, submittedBy := 42 }

/-- A concrete analyst of AcmeCorp. -/
def acmeAnalyst : AuthUser :=
  { id := 42, role := .esg_analyst, organization := "AcmeCorp" }

/-- An auditor of a different organization whose id coincides with the
submitter of the sample records. -/
def globexAuditor : AuthUser :=
  { id := 42, role := .auditor, organization := "GlobexInc" }

/-- The environmental sub-document of the saved sample record, with the
recomputed carbon total. -/
def savedSampleEnv : EnvironmentalData :=
  { scope1Emissions := some 10, scope2Emissions := some 0, scope3Emissions := some 0
    totalCarbonEmissions := some
      (orZero (some (10:ℚ)) + orZero (some (0:ℚ)) + orZero (some (0:ℚ))) }

/-- Environmental summary giving an unrounded environmental score of 1/250. -/
def envSummaryNearZero : EnvironmentalSummary :=
  { totalCarbonEmissions := 49998 / 5 }

/-- Social summary giving an unrounded social score of 1/250. -/
def socialSummaryNearZero : SocialSummary :=
  { averageDiversityRatio := 3 / 250, totalHealthAndSafetyIncidents := 100 }

/-- Governance summary giving an unrounded governance score of 7/1000. -/
def govSummaryNearZero : GovernanceSummary :=
  { averageBoardIndependence := 21 / 1000, totalDataBreaches := 10 }

/-
Helper lemmas.
-/

/-- A left fold whose step adds f of the element to a component accumulates
the sum of f over the list in that component. -/
theorem foldl_accum {α β : Type} (step : β → α → β) (p : β → ℚ) (f : α → ℚ)
    (hstep : ∀ acc a, p (step acc a) = p acc + f a) :
    ∀ (l : List α) (acc : β), p (l.foldl step acc) = p acc + (l.map f).sum := by
  intro l
  induction l with
  | nil => intro acc; simp
  | cons a l ih =>
      intro acc
      rw [List.foldl_cons, ih, hstep, List.map_cons, List.sum_cons]
      ring

/-- The compliance indicator of a record, as an if on isCompliant. -/
theorem govCompliant_eq_indicator (r : ESGRecordDoc) :
    govCompliant r = if isCompliant r then (1 : ℚ) else 0 := by
  cases hg : r.governance with
  | none => simp [govCompliant, isCompliant, hg]
  | some g =>
      by_cases hc : g.complianceStatus = some ComplianceStatus.compliant <;>
        simp [govCompliant, isCompliant, hg, hc]

/-- Summing the compliance indicators counts the compliant records. -/
theorem sum_govCompliant_eq_countP (l : List ESGRecordDoc) :
    (l.map govCompliant).sum = ((l.countP isCompliant : ℕ) : ℚ) := by
  induction l with
  | nil => simp
  | cons r l ih =>
      rw [List.map_cons, List.sum_cons, ih, List.countP_cons, govCompliant_eq_indicator]
      by_cases hc : isCompliant r
      · simp [hc]
        ring
      · simp [hc]

/-- The pre-save hook touches only the environmental sub-document. -/
theorem preSave_status (r : ESGRecordDoc) : (preSaveESGRecord r).status = r.status := by
  cases hg : r.environmental <;> simp [preSaveESGRecord, hg]

/-- The pre-save hook leaves submittedAt unchanged. -/
theorem preSave_submittedAt (r : ESGRecordDoc) :
    (preSaveESGRecord r).submittedAt = r.submittedAt := by
  cases hg : r.environmental <;> simp [preSaveESGRecord, hg]

/-- The pre-save hook leaves reviewedBy unchanged. -/
theorem preSave_reviewedBy (r : ESGRecordDoc) :
    (preSaveESGRecord r).reviewedBy = r.reviewedBy := by
  cases hg : r.environmental <;> simp [preSaveESGRecord, hg]

/-- The pre-save hook leaves approvedAt unchanged. -/
theorem preSave_approvedAt (r : ESGRecordDoc) :
    (preSaveESGRecord r).approvedAt = r.approvedAt := by
  cases hg : r.environmental <;> simp [preSaveESGRecord, hg]

/-- Clamping with min 100 and max 0 lands in the interval. -/
theorem clamp_bounds (q : ℚ) :
    0 ≤ min 100 (max 0 q) ∧ min 100 (max 0 q) ≤ 100 :=
  ⟨le_min (by norm_num) (le_max_left 0 q), min_le_left _ _⟩

/-- Rounding to 2 decimals keeps values of the interval 0 to 100 inside it. -/
theorem roundToDecimal_two_bounds {q : ℚ} (h0 : 0 ≤ q) (h1 : q ≤ 100) :
    0 ≤ roundToDecimal q 2 ∧ roundToDecimal q 2 ≤ 100 := by
  unfold roundToDecimal
  have hpow : ((10 : ℚ) ^ 2) = 100 := by norm_num
  constructor
  · apply div_nonneg _ (by norm_num)
    have hfl : (0 : ℤ) ≤ ⌊q * 10 ^ 2 + 1 / 2⌋ := by
      apply Int.floor_nonneg.mpr
      nlinarith
    exact_mod_cast hfl
  · rw [div_le_iff₀ (by norm_num : (0:ℚ) < 10 ^ 2)]
    have hmono : ⌊q * 10 ^ 2 + 1 / 2⌋ ≤ ⌊(100 : ℚ) * 10 ^ 2 + 1 / 2⌋ :=
      Int.floor_le_floor (by nlinarith)
    have hval : ⌊(100 : ℚ) * 10 ^ 2 + 1 / 2⌋ = 10000 := by norm_num
    rw [hval] at hmono
    have : ((⌊q * 10 ^ 2 + 1 / 2⌋ : ℤ) : ℚ) ≤ 10000 := by exact_mod_cast hmono
    nlinarith

/-- C1: for every non-empty record list, aggregateEnvironmentalMetrics returns
the three scope totals as the rounded sums over the records (absent fields
contributing 0), totalCarbonEmissions as the rounded sum of the three running
totals, averageRenewableEnergyPercentage as the rounded sum divided by the
record count, energy and water as rounded sums, and wasteRecyclingRate 0 when
the summed wasteGenerated is 0 and otherwise the rounded
100 * sum wasteRecycled / sum wasteGenerated; every output is rounded to 2
decimal places. -/
theorem aggregateEnvironmentalMetrics_spec (records : List ESGRecordDoc)
    (h : records ≠ []) :
    (aggregateEnvironmentalMetrics records).totalScope1Emissions
      = roundToDecimal ((records.map (envField EnvironmentalData.scope1Emissions)).sum) 2 ∧
    (aggregateEnvironmentalMetrics records).totalScope2Emissions
      = roundToDecimal ((records.map (envField EnvironmentalData.scope2Emissions)).sum) 2 ∧
    (aggregateEnvironmentalMetrics records).totalScope3Emissions
      = roundToDecimal ((records.map (envField EnvironmentalData.scope3Emissions)).sum) 2 ∧
    (aggregateEnvironmentalMetrics records).totalCarbonEmissions
      = roundToDecimal ((records.map (envField EnvironmentalData.scope1Emissions)).sum
          + (records.map (envField EnvironmentalData.scope2Emissions)).sum
          + (records.map (envField EnvironmentalData.scope3Emissions)).sum) 2 ∧
    (aggregateEnvironmentalMetrics records).averageRenewableEnergyPercentage
      = roundToDecimal
          ((records.map (envField EnvironmentalData.renewableEnergyPercentage)).sum
            / records.length) 2 ∧
    (aggregateEnvironmentalMetrics records).totalEnergyConsumption
      = roundToDecimal ((records.map (envField EnvironmentalData.energyConsumption)).sum) 2 ∧
    (aggregateEnvironmentalMetrics records).totalWaterUsage
      = roundToDecimal ((records.map (envField EnvironmentalData.waterUsage)).sum) 2 ∧
    ((records.map (envField EnvironmentalData.wasteGenerated)).sum = 0 →
      (aggregateEnvironmentalMetrics records).wasteRecyclingRate = 0) ∧
    ((records.map (envField EnvironmentalData.wasteGenerated)).sum ≠ 0 →
      (aggregateEnvironmentalMetrics records).wasteRecyclingRate
        = roundToDecimal
            (100 * (records.map (envField EnvironmentalData.wasteRecycled)).sum
              / (records.map (envField EnvironmentalData.wasteGenerated)).sum) 2) := by
  have hlen : ¬ records.length = 0 := fun hl => h (List.length_eq_zero.mp hl)
  have hs1 : (records.foldl envStep envInit).scope1
      = (records.map (envField EnvironmentalData.scope1Emissions)).sum := by
    rw [foldl_accum envStep EnvTotals.scope1 (envField EnvironmentalData.scope1Emissions)
      (fun acc a => rfl) records envInit]
    simp [envInit]
  have hs2 : (records.foldl envStep envInit).scope2
      = (records.map (envField EnvironmentalData.scope2Emissions)).sum := by
    rw [foldl_accum envStep EnvTotals.scope2 (envField EnvironmentalData.scope2Emissions)
      (fun acc a => rfl) records envInit]
    simp [envInit]
  have hs3 : (records.foldl envStep envInit).scope3
      = (records.map (envField EnvironmentalData.scope3Emissions)).sum := by
    rw [foldl_accum envStep EnvTotals.scope3 (envField EnvironmentalData.scope3Emissions)
      (fun acc a => rfl) records envInit]
    simp [envInit]
  have hre : (records.foldl envStep envInit).renewableEnergy
      = (records.map (envField EnvironmentalData.renewableEnergyPercentage)).sum := by
    rw [foldl_accum envStep EnvTotals.renewableEnergy
      (envField EnvironmentalData.renewableEnergyPercentage) (fun acc a => rfl) records envInit]
    simp [envInit]
  have hec : (records.foldl envStep envInit).energyConsumption
      = (records.map (envField EnvironmentalData.energyConsumption)).sum := by
    rw [foldl_accum envStep EnvTotals.energyConsumption
      (envField EnvironmentalData.energyConsumption) (fun acc a => rfl) records envInit]
    simp [envInit]
  have hwu : (records.foldl envStep envInit).waterUsage
      = (records.map (envField EnvironmentalData.waterUsage)).sum := by
    rw [foldl_accum envStep EnvTotals.waterUsage (envField EnvironmentalData.waterUsage)
      (fun acc a => rfl) records envInit]
    simp [envInit]
  have hwg : (records.foldl envStep envInit).wasteGenerated
      = (records.map (envField EnvironmentalData.wasteGenerated)).sum := by
    rw [foldl_accum envStep EnvTotals.wasteGenerated (envField EnvironmentalData.wasteGenerated)
      (fun acc a => rfl) records envInit]
    simp [envInit]
  have hwr : (records.foldl envStep envInit).wasteRecycled
      = (records.map (envField EnvironmentalData.wasteRecycled)).sum := by
    rw [foldl_accum envStep EnvTotals.wasteRecycled (envField EnvironmentalData.wasteRecycled)
      (fun acc a => rfl) records envInit]
    simp [envInit]
  simp only [aggregateEnvironmentalMetrics, if_neg hlen]
  refine ⟨?_, ?_, ?_, ?_, ?_, ?_, ?_, ?_, ?_⟩
  · rw [hs1]
  · rw [hs2]
  · rw [hs3]
  · simp only [calculateTotalEmissions]
    rw [hs1, hs2, hs3]
  · rw [hre]
  · rw [hec]
  · rw [hwu]
  · intro h0
    simp only [calculateWasteRecyclingRate]
    rw [hwg, if_pos h0]
  · intro h0
    simp only [calculateWasteRecyclingRate, calculatePercentage]
    rw [hwg, hwr, if_neg h0, if_neg h0]
    congr 1
    ring

/-- C1 witness: three records with scope1 emissions 10, 20 and 30 give
totalScope1Emissions 60, totalCarbonEmissions 60, and a zero waste recycling
rate since no record carries wasteGenerated. -/
theorem aggregateEnvironmentalMetrics_spec_witness :
    threeEnvRecords ≠ [] ∧
    (aggregateEnvironmentalMetrics threeEnvRecords).totalScope1Emissions = 60 ∧
    (aggregateEnvironmentalMetrics threeEnvRecords).totalCarbonEmissions = 60 ∧
    (aggregateEnvironmentalMetrics threeEnvRecords).wasteRecyclingRate = 0 := by
  have hne : threeEnvRecords ≠ [] := by simp [threeEnvRecords]
  obtain ⟨h1, h2, h3, h4, h5, h6, h7, h8, h9⟩ :=
    aggregateEnvironmentalMetrics_spec threeEnvRecords hne
  refine ⟨hne, ?_, ?_, ?_⟩
  · rw [h1]
    norm_num [threeEnvRecords, envOnlyRecord, envField, orZero, roundToDecimal]
  · rw [h4]
    norm_num [threeEnvRecords, envOnlyRecord, envField, orZero, roundToDecimal]
  · apply h8
    norm_num [threeEnvRecords, envOnlyRecord, envField, orZero]

/-- C2: calculateOverallScores returns the rounded clamped environmental,
social and governance scores by the documented formulas, totalScore as the
rounded arithmetic mean of the three clamped (un-reclamped) domain scores, and
all four returned values lie between 0 and 100. -/
theorem calculateOverallScores_spec (env : EnvironmentalSummary)
    (soc : SocialSummary) (gov : GovernanceSummary) :
    (calculateOverallScores env soc gov).environmentalScore
      = roundToDecimal (min 100 (max 0 (100 - env.totalCarbonEmissions / 10000 * 100))) 2 ∧
    (calculateOverallScores env soc gov).socialScore
      = roundToDecimal (min 100 (max 0
          ((soc.averageDiversityRatio + (100 - soc.totalHealthAndSafetyIncidents)
            + soc.averageTrainingHours) / 3))) 2 ∧
    (calculateOverallScores env soc gov).governanceScore
      = roundToDecimal (min 100 (max 0
          ((gov.averageBoardIndependence + gov.complianceRate
            + (100 - gov.totalDataBreaches * 10)) / 3))) 2 ∧
    (calculateOverallScores env soc gov).totalScore
      = roundToDecimal
          ((min 100 (max 0 (100 - env.totalCarbonEmissions / 10000 * 100))
            + min 100 (max 0
                ((soc.averageDiversityRatio + (100 - soc.totalHealthAndSafetyIncidents)
                  + soc.averageTrainingHours) / 3))
            + min 100 (max 0
                ((gov.averageBoardIndependence + gov.complianceRate
                  + (100 - gov.totalDataBreaches * 10)) / 3))) / 3) 2 ∧
    (0 ≤ (calculateOverallScores env soc gov).environmentalScore ∧
      (calculateOverallScores env soc gov).environmentalScore ≤ 100) ∧
    (0 ≤ (calculateOverallScores env soc gov).socialScore ∧
      (calculateOverallScores env soc gov).socialScore ≤ 100) ∧
    (0 ≤ (calculateOverallScores env soc gov).governanceScore ∧
      (calculateOverallScores env soc gov).governanceScore ≤ 100) ∧
    (0 ≤ (calculateOverallScores env soc gov).totalScore ∧
      (calculateOverallScores env soc gov).totalScore ≤ 100) := by
  obtain ⟨hE0, hE1⟩ := clamp_bounds (100 - env.totalCarbonEmissions / 10000 * 100)
  obtain ⟨hS0, hS1⟩ := clamp_bounds
    ((soc.averageDiversityRatio + (100 - soc.totalHealthAndSafetyIncidents)
      + soc.averageTrainingHours) / 3)
  obtain ⟨hG0, hG1⟩ := clamp_bounds
    ((gov.averageBoardIndependence + gov.complianceRate
      + (100 - gov.totalDataBreaches * 10)) / 3)
  have hT0 : 0 ≤ (min 100 (max 0 (100 - env.totalCarbonEmissions / 10000 * 100))
      + min 100 (max 0
          ((soc.averageDiversityRatio + (100 - soc.totalHealthAndSafetyIncidents)
            + soc.averageTrainingHours) / 3))
      + min 100 (max 0
          ((gov.averageBoardIndependence + gov.complianceRate
            + (100 - gov.totalDataBreaches * 10)) / 3))) / 3 := by linarith
  have hT1 : (min 100 (max 0 (100 - env.totalCarbonEmissions / 10000 * 100))
      + min 100 (max 0
          ((soc.averageDiversityRatio + (100 - soc.totalHealthAndSafetyIncidents)
            + soc.averageTrainingHours) / 3))
      + min 100 (max 0
          ((gov.averageBoardIndependence + gov.complianceRate
            + (100 - gov.totalDataBreaches * 10)) / 3))) / 3 ≤ 100 := by linarith
  exact ⟨rfl, rfl, rfl, rfl,
    roundToDecimal_two_bounds hE0 hE1,
    roundToDecimal_two_bounds hS0 hS1,
    roundToDecimal_two_bounds hG0 hG1,
    roundToDecimal_two_bounds hT0 hT1⟩

/-- C10: totalScore is the rounding of the mean of the clamped domain scores
taken before they are themselves rounded; on the concrete summaries below the
returned totalScore is 0.01 while the rounded mean of the three rounded
domain-score fields is 0. -/
theorem totalScore_uses_unrounded_scores :
    (∀ (env : EnvironmentalSummary) (soc : SocialSummary) (gov : GovernanceSummary),
      (calculateOverallScores env soc gov).totalScore
        = roundToDecimal
            ((min 100 (max 0 (100 - env.totalCarbonEmissions / 10000 * 100))
              + min 100 (max 0
                  ((soc.averageDiversityRatio + (100 - soc.totalHealthAndSafetyIncidents)
                    + soc.averageTrainingHours) / 3))
              + min 100 (max 0
                  ((gov.averageBoardIndependence + gov.complianceRate
                    + (100 - gov.totalDataBreaches * 10)) / 3))) / 3) 2) ∧
    (calculateOverallScores envSummaryNearZero socialSummaryNearZero
        govSummaryNearZero).totalScore = 1 / 100 ∧
    roundToDecimal
        (((calculateOverallScores envSummaryNearZero socialSummaryNearZero
            govSummaryNearZero).environmentalScore
          + (calculateOverallScores envSummaryNearZero socialSummaryNearZero
              govSummaryNearZero).socialScore
          + (calculateOverallScores envSummaryNearZero socialSummaryNearZero
              govSummaryNearZero).governanceScore) / 3) 2 = 0 ∧
    (calculateOverallScores envSummaryNearZero socialSummaryNearZero
        govSummaryNearZero).totalScore
      ≠ roundToDecimal
          (((calculateOverallScores envSummaryNearZero socialSummaryNearZero
              govSummaryNearZero).environmentalScore
            + (calculateOverallScores envSummaryNearZero socialSummaryNearZero
                govSummaryNearZero).socialScore
            + (calculateOverallScores envSummaryNearZero socialSummaryNearZero
                govSummaryNearZero).governanceScore) / 3) 2 := by
  have hmean : (calculateOverallScores envSummaryNearZero socialSummaryNearZero
      govSummaryNearZero).totalScore = 1 / 100 := by
    norm_num [calculateOverallScores, roundToDecimal, envSummaryNearZero,
      socialSummaryNearZero, govSummaryNearZero, min_def, max_def]
  have hfields : roundToDecimal
      (((calculateOverallScores envSummaryNearZero socialSummaryNearZero
          govSummaryNearZero).environmentalScore
        + (calculateOverallScores envSummaryNearZero socialSummaryNearZero
            govSummaryNearZero).socialScore
        + (calculateOverallScores envSummaryNearZero socialSummaryNearZero
            govSummaryNearZero).governanceScore) / 3) 2 = 0 := by
    norm_num [calculateOverallScores, roundToDecimal, envSummaryNearZero,
      socialSummaryNearZero, govSummaryNearZero, min_def, max_def]
  refine ⟨fun env soc gov => rfl, hmean, hfields, ?_⟩
  rw [hmean, hfields]
  norm_num

/-- C3: for every non-empty record list, aggregateGovernanceMetrics returns
the board-independence and female-directors averages as the (rounded) sums
over the record count, complianceRate as 100 times the count of records whose
complianceStatus is exactly compliant over the record count rounded to 2
decimal places, and the whistleblower and data-breach totals as unrounded
sums. -/
theorem aggregateGovernanceMetrics_spec (records : List ESGRecordDoc)
    (h : records ≠ []) :
    (aggregateGovernanceMetrics records).averageBoardIndependence
      = roundToDecimal
          ((records.map (govField GovernanceData.boardIndependence)).sum / records.length) 2 ∧
    (aggregateGovernanceMetrics records).averageFemaleDirectorsPercentage
      = roundToDecimal
          ((records.map (govField GovernanceData.femaleDirectorsPercentage)).sum
            / records.length) 2 ∧
    (aggregateGovernanceMetrics records).complianceRate
      = roundToDecimal (100 * ((records.countP isCompliant : ℕ) : ℚ) / records.length) 2 ∧
    (aggregateGovernanceMetrics records).totalWhistleblowerCases
      = (records.map (govField GovernanceData.whistleblowerCases)).sum ∧
    (aggregateGovernanceMetrics records).totalDataBreaches
      = (records.map (govField GovernanceData.dataBreaches)).sum := by
  have hlen : ¬ records.length = 0 := fun hl => h (List.length_eq_zero.mp hl)
  have hbi : (records.foldl govStep govInit).boardIndependence
      = (records.map (govField GovernanceData.boardIndependence)).sum := by
    rw [foldl_accum govStep GovTotals.boardIndependence
      (govField GovernanceData.boardIndependence) (fun acc a => rfl) records govInit]
    simp [govInit]
  have hfd : (records.foldl govStep govInit).femaleDirectors
      = (records.map (govField GovernanceData.femaleDirectorsPercentage)).sum := by
    rw [foldl_accum govStep GovTotals.femaleDirectors
      (govField GovernanceData.femaleDirectorsPercentage) (fun acc a => rfl) records govInit]
    simp [govInit]
  have hcc : (records.foldl govStep govInit).compliant
      = ((records.countP isCompliant : ℕ) : ℚ) := by
    rw [foldl_accum govStep GovTotals.compliant govCompliant
      (fun acc a => rfl) records govInit]
    rw [sum_govCompliant_eq_countP]
    simp [govInit]
  have hwb : (records.foldl govStep govInit).whistleblower
      = (records.map (govField GovernanceData.whistleblowerCases)).sum := by
    rw [foldl_accum govStep GovTotals.whistleblower
      (govField GovernanceData.whistleblowerCases) (fun acc a => rfl) records govInit]
    simp [govInit]
  have hdb : (records.foldl govStep govInit).dataBreaches
      = (records.map (govField GovernanceData.dataBreaches)).sum := by
    rw [foldl_accum govStep GovTotals.dataBreaches (govField GovernanceData.dataBreaches)
      (fun acc a => rfl) records govInit]
    simp [govInit]
  have hcast : ((records.length : ℚ)) ≠ 0 := Nat.cast_ne_zero.mpr hlen
  simp only [aggregateGovernanceMetrics, if_neg hlen]
  refine ⟨?_, ?_, ?_, ?_, ?_⟩
  · rw [hbi]
  · rw [hfd]
  · simp only [calculatePercentage]
    rw [hcc, if_neg hcast]
    congr 1
    ring
  · rw [hwb]
  · rw [hdb]

/-- C3 witness: four concrete governance records with two compliant ones give
complianceRate exactly 50 and an unrounded data-breach total of 3. -/
theorem aggregateGovernanceMetrics_spec_witness :
    fourGovRecords ≠ [] ∧
    (aggregateGovernanceMetrics fourGovRecords).complianceRate = 50 ∧
    (aggregateGovernanceMetrics fourGovRecords).totalDataBreaches = 3 := by
  have hne : fourGovRecords ≠ [] := by simp [fourGovRecords]
  obtain ⟨h1, h2, h3, h4, h5⟩ := aggregateGovernanceMetrics_spec fourGovRecords hne
  refine ⟨hne, ?_, ?_⟩
  · rw [h3]
    have hcount : fourGovRecords.countP isCompliant = 2 := by
      simp [fourGovRecords, govOnlyRecord, isCompliant]
    rw [hcount]
    norm_num [fourGovRecords, roundToDecimal]
  · rw [h5]
    norm_num [fourGovRecords, govOnlyRecord, govField, orZero]

/-- C4: when the eligible-record query for the resolved period is empty,
generateReport fails with HTTP 400 and no report value exists; a report is
created only when at least one approved record of the organization falls in
the closed window, and then with code 201. -/
theorem generateReport_empty_refusal (store : List ESGRecordDoc) (organization : String)
    (startDate endDate : ℤ) (reportId generatedBy : ℕ) :
    (getRecordsForPeriod store organization startDate endDate = [] →
      generateReport store organization startDate endDate reportId generatedBy
        = GenerateReportResult.clientError 400) ∧
    (∀ code report,
      generateReport store organization startDate endDate reportId generatedBy
          = GenerateReportResult.created code report →
      code = 201 ∧
      ∃ r ∈ store, r.organization = organization ∧ r.status = RecordStatus.approved ∧
        startDate ≤ r.createdAt ∧ r.createdAt ≤ endDate) := by
  constructor
  · intro he
    have hl : (getRecordsForPeriod store organization startDate endDate).length = 0 := by
      rw [he]
      rfl
    simp [generateReport, hl]
  · intro code report hcr
    by_cases hl : (getRecordsForPeriod store organization startDate endDate).length = 0
    · simp [generateReport, hl] at hcr
    · simp only [generateReport] at hcr
      rw [if_neg hl] at hcr
      injection hcr with hcode hreport
      have hpos : 0 < (getRecordsForPeriod store organization startDate endDate).length :=
        Nat.pos_of_ne_zero hl
      obtain ⟨r, hr⟩ := List.exists_mem_of_length_pos hpos
      simp only [getRecordsForPeriod] at hr
      obtain ⟨hstore, hpred⟩ := List.mem_filter.mp hr
      simp only [Bool.and_eq_true, beq_iff_eq, decide_eq_true_eq] at hpred
      exact ⟨hcode.symm, r, hstore, hpred.1.1.1, hpred.1.1.2, hpred.1.2, hpred.2⟩

/-- C4 witness: the one approved record of the sample store was created at
instant 5, so a report request over the window 100 to 200 finds no eligible
record and is refused with 400. -/
theorem generateReport_empty_refusal_witness :
    getRecordsForPeriod sampleStore "AcmeCorp" 100 200 = [] ∧
    generateReport sampleStore "AcmeCorp" 100 200 1 2
      = GenerateReportResult.clientError 400 := by
  have he : getRecordsForPeriod sampleStore "AcmeCorp" 100 200 = [] := by
    simp [getRecordsForPeriod, sampleStore, envOnlyRecord]
  exact ⟨he, (generateReport_empty_refusal sampleStore "AcmeCorp" 100 200 1 2).1 he⟩

/-- C5 counterexample: updateReportStatus moves a published report back to
draft, a strictly backward step along the chain, refuting the claim that no
operation can move a report status backward. -/
theorem updateReportStatus_backward_counterexample :
    (updateReportStatus publishedReport (some ReportStatus.draft) none 60).status
      = ReportStatus.draft ∧
    statusIndex ReportStatus.draft < statusIndex ReportStatus.published := by
  constructor
  · rfl
  · norm_num [statusIndex]

/-- C5 amended: updateReportStatus assigns whatever enum status the request
supplies, with no transition-order guard, so backward moves are possible; the
transition to published stamps publishedAt with the current time, and an
absent status leaves the status unchanged. -/
theorem updateReportStatus_amended (report : ReportDoc) (s : ReportStatus)
    (notes : Option String) (now : ℤ) :
    (updateReportStatus report (some s) notes now).status = s ∧
    (s = ReportStatus.published →
      (updateReportStatus report (some s) notes now).publishedAt = some now) ∧
    (updateReportStatus report none notes now).status = report.status := by
  refine ⟨?_, ?_, ?_⟩
  · cases notes <;> simp [updateReportStatus]
  · intro hs
    subst hs
    cases notes <;> simp [updateReportStatus]
  · cases notes <;> simp [updateReportStatus]

/-- C5 witness for the amended claim: publishing stamps publishedAt, and an
archive request lands on archived. -/
theorem updateReportStatus_amended_witness :
    (updateReportStatus publishedReport (some ReportStatus.published) none 77).publishedAt
      = some 77 ∧
    (updateReportStatus publishedReport (some ReportStatus.archived) none 77).status
      = ReportStatus.archived := by
  exact ⟨(updateReportStatus_amended publishedReport ReportStatus.published none 77).2.1 rfl,
    (updateReportStatus_amended publishedReport ReportStatus.archived none 77).1⟩

/-- C6: for an existing record accessible to the caller, submitESGRecord
succeeds exactly on status draft (setting status submitted and stamping
submittedAt) and approveESGRecord succeeds exactly on status submitted or
under review (setting status approved, reviewedBy to the caller, approvedAt);
any other status yields HTTP 400 with the record unchanged. -/
theorem recordLifecycle_guards (record : ESGRecordDoc) (caller : AuthUser)
    (reviewNotes : Option String) (now : ℤ)
    (hacc : caller.role = Role.administrator ∨ record.organization = caller.organization) :
    ((submitESGRecord record caller now).1 = 200 ↔ record.status = RecordStatus.draft) ∧
    (record.status = RecordStatus.draft →
      (submitESGRecord record caller now).2.status = RecordStatus.submitted ∧
      (submitESGRecord record caller now).2.submittedAt = some now) ∧
    (record.status ≠ RecordStatus.draft →
      submitESGRecord record caller now = (400, record)) ∧
    ((approveESGRecord record caller reviewNotes now).1 = 200 ↔
      (record.status = RecordStatus.submitted ∨ record.status = RecordStatus.under_review)) ∧
    ((record.status = RecordStatus.submitted ∨ record.status = RecordStatus.under_review) →
      (approveESGRecord record caller reviewNotes now).2.status = RecordStatus.approved ∧
      (approveESGRecord record caller reviewNotes now).2.reviewedBy = some caller.id ∧
      (approveESGRecord record caller reviewNotes now).2.approvedAt = some now) ∧
    (¬(record.status = RecordStatus.submitted ∨ record.status = RecordStatus.under_review) →
      approveESGRecord record caller reviewNotes now = (400, record)) := by
  have hguard : ¬(caller.role ≠ Role.administrator ∧
      record.organization ≠ caller.organization) := by
    rcases hacc with h | h
    · exact fun hc => hc.1 h
    · exact fun hc => hc.2 h
  refine ⟨?_, ?_, ?_, ?_, ?_, ?_⟩
  · constructor
    · intro h200
      by_contra hnd
      simp [submitESGRecord, if_neg hguard, if_pos hnd] at h200
    · intro hd
      have hnd : ¬ record.status ≠ RecordStatus.draft := fun hn => hn hd
      simp [submitESGRecord, if_neg hguard, if_neg hnd]
  · intro hd
    have hnd : ¬ record.status ≠ RecordStatus.draft := fun hn => hn hd
    simp only [submitESGRecord, if_neg hguard, if_neg hnd, saveESGRecord]
    rw [preSave_status, preSave_submittedAt]
    simp
  · intro hnd
    simp [submitESGRecord, if_neg hguard, if_pos hnd]
  · constructor
    · intro h200
      by_contra hno
      push_neg at hno
      simp [approveESGRecord, if_pos hno] at h200
    · intro hsu
      have hno : ¬(record.status ≠ RecordStatus.submitted ∧
          record.status ≠ RecordStatus.under_review) := by
        rcases hsu with h | h
        · exact fun hc => hc.1 h
        · exact fun hc => hc.2 h
      simp [approveESGRecord, if_neg hno]
  · intro hsu
    have hno : ¬(record.status ≠ RecordStatus.submitted ∧
        record.status ≠ RecordStatus.under_review) := by
      rcases hsu with h | h
      · exact fun hc => hc.1 h
      · exact fun hc => hc.2 h
    simp only [approveESGRecord, if_neg hno, saveESGRecord]
    rw [preSave_status, preSave_reviewedBy, preSave_approvedAt]
    simp
  · intro hno
    push_neg at hno
    simp [approveESGRecord, if_pos hno]

/-- C6 witness: the analyst of the same organization submits a draft record
with success, while approving that same draft record is refused with 400 and
leaves the record unchanged. -/
theorem recordLifecycle_guards_witness :
    (acmeAnalyst.role = Role.administrator ∨
      draftRecord.organization = acmeAnalyst.organization) ∧
    (submitESGRecord draftRecord acmeAnalyst 9).1 = 200 ∧
    (submitESGRecord draftRecord acmeAnalyst 9).2.status = RecordStatus.submitted ∧
    approveESGRecord draftRecord acmeAnalyst none 9 = (400, draftRecord) := by
  have hacc : acmeAnalyst.role = Role.administrator ∨
      draftRecord.organization = acmeAnalyst.organization := Or.inr rfl
  obtain ⟨h1, h2, h3, h4, h5, h6⟩ := recordLifecycle_guards draftRecord acmeAnalyst none 9 hacc
  refine ⟨hacc, h1.mpr rfl, (h2 rfl).1, h6 ?_⟩
  rintro (hs | hs) <;> simp [draftRecord, envOnlyRecord] at hs

/-- C7: after every persist of an ESGRecord (creation, whole-sub-object
updates, and any other save), environmental.totalCarbonEmissions equals the
sum of the three scope emissions, a missing scope counting as 0. -/
theorem totalCarbon_invariant :
    (∀ (data : ESGRecordDoc) (e : EnvironmentalData),
      (createESGRecord data).environmental = some e →
      e.totalCarbonEmissions = some
        (orZero e.scope1Emissions + orZero e.scope2Emissions + orZero e.scope3Emissions)) ∧
    (∀ (r : ESGRecordDoc) (patch : ESGUpdatePatch) (e : EnvironmentalData),
      (updateESGRecordSave r patch).environmental = some e →
      e.totalCarbonEmissions = some
        (orZero e.scope1Emissions + orZero e.scope2Emissions + orZero e.scope3Emissions)) ∧
    (∀ (r : ESGRecordDoc) (e : EnvironmentalData),
      (saveESGRecord r).environmental = some e →
      e.totalCarbonEmissions = some
        (orZero e.scope1Emissions + orZero e.scope2Emissions + orZero e.scope3Emissions)) := by
  have main : ∀ (r : ESGRecordDoc) (e : EnvironmentalData),
      (saveESGRecord r).environmental = some e →
      e.totalCarbonEmissions = some
        (orZero e.scope1Emissions + orZero e.scope2Emissions + orZero e.scope3Emissions) := by
    intro r e hsome
    cases hg : r.environmental with
    | none => simp [saveESGRecord, preSaveESGRecord, hg] at hsome
    | some e0 =>
        simp only [saveESGRecord, preSaveESGRecord, hg, Option.some.injEq] at hsome
        subst hsome
        rfl
  exact ⟨fun data e h => main data e h, fun r patch e h => main _ e h, main⟩

/-- C7 witness: saving the concrete record with scopes 10, 0 and 0 yields an
environmental sub-document whose stored carbon total is the recomputed sum,
concretely 10. -/
theorem totalCarbon_invariant_witness :
    (saveESGRecord (envOnlyRecord 10)).environmental = some savedSampleEnv ∧
    savedSampleEnv.totalCarbonEmissions = some
      (orZero savedSampleEnv.scope1Emissions + orZero savedSampleEnv.scope2Emissions
        + orZero savedSampleEnv.scope3Emissions) ∧
    savedSampleEnv.totalCarbonEmissions = some 10 := by
  have hsave : (saveESGRecord (envOnlyRecord 10)).environmental = some savedSampleEnv := rfl
  refine ⟨hsave, totalCarbon_invariant.2.2 (envOnlyRecord 10) savedSampleEnv hsave, ?_⟩
  norm_num [savedSampleEnv, orZero]

/-- C8: the audit writer catches its own failure (createLog yields null, never
an exception), so the submit controllers response and persisted state are
identical whatever the audit-write outcome, and equal those of the underlying
operation. -/
theorem auditWrite_failure_isolated :
    (∀ msg : String, createLog (Except.error msg) = Except.ok none) ∧
    (∀ (record : ESGRecordDoc) (caller : AuthUser) (now : ℤ)
        (w1 w2 : Except String AuditLogEntry),
      submitESGRecordWithAudit record caller now w1
        = submitESGRecordWithAudit record caller now w2) ∧
    (∀ (record : ESGRecordDoc) (caller : AuthUser) (now : ℤ)
        (w : Except String AuditLogEntry),
      submitESGRecordWithAudit record caller now w
        = Except.ok (submitESGRecord record caller now)) := by
  refine ⟨fun msg => rfl, ?_, ?_⟩
  · intro record caller now w1 w2
    cases w1 <;> cases w2 <;> rfl
  · intro record caller now w
    cases w <;> rfl

/-- C9: the approve route guard passes every authenticated role, and the
controller checks only existence and status, so any user of any role and any
organization (including the records own submitter) can approve a submitted or
under-review record. -/
theorem approveRoute_no_role_org_guard (record : ESGRecordDoc) (caller : AuthUser)
    (reviewNotes : Option String) (now : ℤ)
    (h : record.status = RecordStatus.submitted ∨ record.status = RecordStatus.under_review) :
    anyRole caller = true ∧
    (approveRoute record caller reviewNotes now).1 = 200 ∧
    (approveRoute record caller reviewNotes now).2.status = RecordStatus.approved ∧
    (approveRoute record caller reviewNotes now).2.reviewedBy = some caller.id := by
  have hany : anyRole caller = true := by
    cases hr : caller.role <;> simp [anyRole, checkRole, hr]
  have hno : ¬(record.status ≠ RecordStatus.submitted ∧
      record.status ≠ RecordStatus.under_review) := by
    rcases h with hs | hs
    · exact fun hc => hc.1 hs
    · exact fun hc => hc.2 hs
  refine ⟨hany, ?_, ?_, ?_⟩
  · simp [approveRoute, hany, approveESGRecord, if_neg hno]
  · simp only [approveRoute, if_pos hany, approveESGRecord, if_neg hno, saveESGRecord]
    rw [preSave_status]
  · simp only [approveRoute, if_pos hany, approveESGRecord, if_neg hno, saveESGRecord]
    rw [preSave_reviewedBy]

/-- C9 witness: an auditor of a different organization, whose user id is the
records submitter, approves the submitted record through the route with
success. -/
theorem approveRoute_no_role_org_guard_witness :
    (submittedRecord.status = RecordStatus.submitted ∨
      submittedRecord.status = RecordStatus.under_review) ∧
    globexAuditor.role = Role.auditor ∧
    globexAuditor.organization ≠ submittedRecord.organization ∧
    globexAuditor.id = submittedRecord.submittedBy ∧
    (approveRoute submittedRecord globexAuditor none 99).1 = 200 ∧
    (approveRoute submittedRecord globexAuditor none 99).2.status
      = RecordStatus.approved := by
  have h := approveRoute_no_role_org_guard submittedRecord globexAuditor none 99 (Or.inl rfl)
  refine ⟨Or.inl rfl, rfl, ?_, rfl, h.2.1, h.2.2.1⟩
  simp [globexAuditor, submittedRecord, envOnlyRecord]

end ESG
